import Mathlib

/-!
Shallow embedding of `py_test_runner.py` (PyTestRunner): workspace
provisioning with baseline snapshotting, Docker container lifecycle
orchestration, outcome classification from exit code and log text,
output capture by file-name set difference, and bounded-retry workspace
teardown.  External effects (filesystem, Docker daemon, clock) are
modelled by explicit environments of operation outcomes; Python
exceptions are modelled by `Except` / explicit outcome sums.
-/

namespace PyTestRunner

/-- A filesystem path, modelled by its final component (`Path.name` in
the source is the only observation the program makes of a path besides
existence checks, which live in the environment). -/
structure FilePath0 where
  name : String
deriving DecidableEq, Repr

/-- `ScriptConfig` dataclass: all script configuration. -/
structure ScriptConfig where
  script_path : FilePath0
  reqs_path : FilePath0
  input_paths : List FilePath0
  script_args : String
  json_output : Bool
  python_version : String
deriving DecidableEq, Repr

/-- Details dict attached to a `ScriptResult` (keys `exit_code`, `raw_logs`). -/
structure Details where
  exit_code : Option Int := none
  raw_logs : Option String := none
deriving DecidableEq, Repr

/-- `ScriptResult` dataclass: holds the results of a script execution. -/
structure ScriptResult where
  status : String
  message : String
  captured_files : Option (List String) := none
  details : Option Details := none
deriving DecidableEq, Repr

/-- Does the character list `hay` start with `needle`?  (Helper for the
embedding of Python's substring test `sig in container_logs`.) -/
def startsWithChars : List Char → List Char → Bool
  | _, [] => true
  | [], _ :: _ => false
  | a :: hay, b :: needle => a = b && startsWithChars hay needle

/-- Python's substring containment `needle in hay`, over character lists. -/
def containsChars : List Char → List Char → Bool
  | hay, needle =>
    if startsWithChars hay needle then true
    else
      match hay with
      | [] => false
      | _ :: rest => containsChars rest needle

/-- Python's `sig in container_logs` on strings. -/
def strContains (hay needle : String) : Bool :=
  containsChars hay.data needle.data

/-- The fixed, case-sensitive dependency-installer failure signatures
scanned for in the container logs (source lines 161–166). -/
def pip_error_signatures : List String :=
  [ "Could not find a version that satisfies",
    "No matching distribution found",
    "Invalid requirement:",
    "is not a valid requirement." ]

/-- Classification of an exit code and combined container log text into a
`ScriptResult` (the body of `DockerRunner.run` after `wait`/`logs`,
source lines 160–183). -/
def classifyResult (exit_code : Int) (container_logs : String) : ScriptResult :=
  if exit_code ≠ 0 then
    let is_pip_error :=
      pip_error_signatures.any (fun sig => strContains container_logs sig)
    let details : Details := { exit_code := some exit_code, raw_logs := some container_logs }
    if is_pip_error then
      { status := "environment_setup_failed",
        message := "Failed to install dependencies from requirements.txt.",
        details := some details }
    else
      { status := "script_failed",
        message := "The user script failed with a non-zero exit code.",
        details := some details }
  else
    { status := "success",
      message := "Script executed successfully.",
      details := some { raw_logs := some container_logs } }

/-- Image reference computed in `DockerRunner.__init__`:
`f"python:{self.config.python_version}-slim"`. -/
def DockerRunner.image (config : ScriptConfig) : String :=
  "python:" ++ config.python_version ++ "-slim"

/-- The in-container shell command string built in `DockerRunner.run`
(source lines 129–133). -/
def DockerRunner.command_str (config : ScriptConfig) : String :=
  "python -m venv /opt/venv && " ++
  ("/opt/venv/bin/pip install -r /app/" ++ config.reqs_path.name ++ " && ") ++
  ("/opt/venv/bin/python /app/" ++ config.script_path.name ++ " " ++ config.script_args)

/-- The command list passed to container create: `["sh", "-c", command_str]`. -/
def DockerRunner.command (config : ScriptConfig) : List String :=
  ["sh", "-c", DockerRunner.command_str config]

/-- Environment of Docker-operation outcomes for one orchestration call.
`false` / `none` means the corresponding client call raises a
`docker.errors.DockerException`. -/
structure DockerEnv where
  pullOk : Bool
  createOk : Bool
  startOk : Bool
  waitResult : Option Int
  logsResult : Option String
  removeOk : Bool
deriving DecidableEq, Repr

/-- Outcome of `DockerRunner.run`: a returned `ScriptResult`, a raised
`DockerDaemonError` (error type `docker_daemon_error`), or a raw
`DockerException` escaping the `finally` block uncaught (the
`except docker.errors.DockerException` clause does not cover the
`finally` block). -/
inductive RunOutcome
  | ok (r : ScriptResult)
  | daemonError (message : String)
  | uncaughtDockerExc
deriving DecidableEq, Repr

/-- Observable container-lifecycle events of one `DockerRunner.run` call. -/
structure RunTrace where
  containerCreated : Bool
  removeAttempts : Nat
deriving DecidableEq, Repr

/-- The `try`/`except docker.errors.DockerException` part of
`DockerRunner.run` (source lines 137–186): pull, create, start, wait,
logs, then classification; any `DockerException` is re-raised as a
`DockerDaemonError` (`Except.error`).  The `Bool` records whether the
`container` variable was assigned (creation succeeded). -/
def runTryExcept (env : DockerEnv) : Except String ScriptResult × Bool :=
  if env.pullOk = false then
    (Except.error "A Docker error occurred: pull", false)
  else if env.createOk = false then
    (Except.error "A Docker error occurred: create", false)
  else if env.startOk = false then
    (Except.error "A Docker error occurred: start", true)
  else
    match env.waitResult with
    | none => (Except.error "A Docker error occurred: wait", true)
    | some exit_code =>
      match env.logsResult with
      | none => (Except.error "A Docker error occurred: logs", true)
      | some logs => (Except.ok (classifyResult exit_code logs), true)

/-- Full `DockerRunner.run` including the `finally` block (source lines
187–190): when a container was created, `container.remove()` is called
exactly once; if removal raises, that exception replaces the pending
return value or exception (Python `finally` semantics) and escapes the
method uncaught. -/
def DockerRunner.run (env : DockerEnv) : RunOutcome × RunTrace :=
  let tryResult := (runTryExcept env).1
  let created := (runTryExcept env).2
  if created then
    if env.removeOk then
      (match tryResult with
       | Except.ok r => RunOutcome.ok r
       | Except.error m => RunOutcome.daemonError m,
       { containerCreated := true, removeAttempts := 1 })
    else
      (RunOutcome.uncaughtDockerExc,
       { containerCreated := true, removeAttempts := 1 })
  else
    (match tryResult with
     | Except.ok r => RunOutcome.ok r
     | Except.error m => RunOutcome.daemonError m,
     { containerCreated := false, removeAttempts := 0 })

/-! ### Workspace teardown (`WorkspaceManager.__exit__`, source lines 79–95) -/

/-- Result of the teardown retry loop. -/
structure TeardownOutcome where
  removed : Bool
  fatalLogged : Bool
  attempts : Nat
deriving DecidableEq, Repr

/-- `timeout = 15` seconds (source line 84). -/
def teardown_timeout : ℚ := 15

/-- `interval = 0.5` seconds (source line 85). -/
def teardown_interval : ℚ := 1 / 2

/-- The `while True` retry loop of `__exit__`: attempt `shutil.rmtree`;
on success break; on `OSError`, if elapsed time exceeds the timeout log
the fatal message and break, otherwise sleep for the interval and retry.
`fails k` tells whether the `k`-th removal attempt raises `OSError`;
`time k` is the elapsed time observed at the check following attempt `k`.
Fuel makes the (potentially clock-dependent) loop a total function;
`none` means the loop is still running after `fuel` attempts. -/
def exitLoop (fails : Nat → Bool) (time : Nat → ℚ) :
    Nat → Nat → Option TeardownOutcome
  | 0, _ => none
  | fuel + 1, k =>
    if fails k = false then
      some { removed := true, fatalLogged := false, attempts := k + 1 }
    else if teardown_timeout < time k then
      some { removed := false, fatalLogged := true, attempts := k + 1 }
    else
      exitLoop fails time fuel (k + 1)

/-- `WorkspaceManager.__exit__`: returns immediately when no temporary
directory was created, otherwise runs the retry loop.  It never raises
and never suppresses a pending exception (it returns `None`). -/
def wsExit (temp_dir_set : Bool) (fails : Nat → Bool) (time : Nat → ℚ) :
    Option TeardownOutcome :=
  if temp_dir_set then exitLoop fails time 32 0
  else some { removed := false, fatalLogged := false, attempts := 0 }

/-! ### Output capture (`WorkspaceManager.capture_outputs`, source lines 97–106) -/

/-- A directory entry seen by `Path.iterdir`: a name and whether the
entry is a directory. -/
structure Entry where
  name : String
  is_dir : Bool
deriving DecidableEq, Repr

/-- Python exceptions that reach `main`'s handlers. -/
inductive PyExc
  | runnerError (error_type : String) (message : String)
  | isADirectoryError
  | osError
deriving DecidableEq, Repr

/-- The baseline snapshot taken in `__enter__` (source line 76): the set
of names of the files just copied into the fresh temporary directory
(script, requirements manifest, input files). -/
def WorkspaceManager.initial_files (config : ScriptConfig) : Finset String :=
  insert config.script_path.name
    (insert config.reqs_path.name (config.input_paths.map FilePath0.name).toFinset)

/-- Lexicographic (code-point) order on character lists: the order
Python's `sorted` uses on strings. -/
def lexLe : List Char → List Char → Bool
  | [], _ => true
  | _ :: _, [] => false
  | a :: as, b :: bs => if a = b then lexLe as bs else decide (a < b)

/-- Python's string order, as a relation on `String`. -/
def strLe (a b : String) : Prop := lexLe a.data b.data = true

instance : DecidableRel strLe := fun a b =>
  inferInstanceAs (Decidable (lexLe a.data b.data = true))

instance : IsTotal String strLe := ⟨fun a b => by
  suffices h : ∀ x y : List Char, lexLe x y = true ∨ lexLe y x = true from
    h a.data b.data
  intro x
  induction x with
  | nil => intro y; exact Or.inl rfl
  | cons c cs ih =>
    intro y
    cases y with
    | nil => exact Or.inr rfl
    | cons d ds =>
      by_cases hcd : c = d
      · subst hcd
        rcases ih ds with h | h
        · exact Or.inl (by simp only [lexLe, if_pos rfl]; exact h)
        · exact Or.inr (by simp only [lexLe, if_pos rfl]; exact h)
      · rcases lt_or_gt_of_ne hcd with h | h
        · refine Or.inl ?_
          simp only [lexLe, if_neg hcd, decide_eq_true_eq]
          exact h
        · refine Or.inr ?_
          simp only [lexLe, if_neg (Ne.symm hcd), decide_eq_true_eq]
          exact h⟩

instance : IsTrans String strLe := ⟨fun a b c => by
  suffices h : ∀ x y z : List Char,
      lexLe x y = true → lexLe y z = true → lexLe x z = true from
    h a.data b.data c.data
  intro x
  induction x with
  | nil => intro y z _ _; rfl
  | cons u us ih =>
    intro y z hxy hyz
    cases y with
    | nil => simp [lexLe] at hxy
    | cons v vs =>
      cases z with
      | nil => simp [lexLe] at hyz
      | cons w ws =>
        by_cases huv : u = v <;> by_cases hvw : v = w
        · subst huv; subst hvw
          simp only [lexLe, if_pos rfl] at hxy hyz ⊢
          exact ih vs ws hxy hyz
        · subst huv
          simp only [lexLe, if_neg hvw, decide_eq_true_eq] at hyz ⊢
          exact hyz
        · subst hvw
          simp only [lexLe, if_neg huv, decide_eq_true_eq] at hxy ⊢
          exact hxy
        · simp only [lexLe, if_neg huv, decide_eq_true_eq] at hxy
          simp only [lexLe, if_neg hvw, decide_eq_true_eq] at hyz
          have huw : u < w := lt_trans hxy hyz
          simp only [lexLe, if_neg (ne_of_lt huw), decide_eq_true_eq]
          exact huw⟩

/-- `sorted(list(final_files - self.initial_files))`: the set of current
file names (`set(p.name for p in iterdir())`, modelled by `dedup`) minus
the baseline, sorted lexicographically. -/
def newFileNames (final_entries : List Entry) (initial : Finset String) : List String :=
  List.insertionSort strLe
    ((final_entries.map Entry.name).dedup.filter (fun n => n ∉ initial))

/-- Is the entry named `n` in the workspace a directory?
(`shutil.copy` raises `IsADirectoryError` on a directory source.) -/
def entryIsDir (entries : List Entry) (n : String) : Bool :=
  entries.any (fun e => e.name = n && e.is_dir)

/-- The copy loop of `capture_outputs`: copies each captured name in
order; the first directory entry makes `shutil.copy` raise.  Returns
the names actually copied into the results directory and the exception,
if any, that aborted the loop. -/
def copyLoop (entries : List Entry) : List String → List String × Option PyExc
  | [] => ([], none)
  | n :: ns =>
    if entryIsDir entries n then ([], some PyExc.isADirectoryError)
    else
      let rest := copyLoop entries ns
      (n :: rest.1, rest.2)

/-- `WorkspaceManager.capture_outputs`: diff current names against the
baseline, sort, copy each into the results directory, return the sorted
list — or raise out of the copy loop. -/
def WorkspaceManager.capture_outputs (final_entries : List Entry) (initial : Finset String) :
    Except PyExc (List String) :=
  let captured := newFileNames final_entries initial
  match (copyLoop final_entries captured).2 with
  | some e => Except.error e
  | none => Except.ok captured

/-! ### `handle_exit` and `main` (source lines 193–318) -/

/-- `exit_code = 0 if status == 'success' else 1` (source line 212). -/
def handle_exit_code (status : String) : Nat :=
  if status = "success" then 0 else 1

/-- The arguments of the one `handle_exit` call that terminates the
process, together with the process exit code it produces. -/
structure ExitCall where
  status_arg : String
  payload_status : String
  error_type : Option String
  message : String
  captured_files : Option (List String)
  exit_code : Nat
deriving DecidableEq, Repr

/-- Environment of external outcomes for one whole invocation. -/
structure Env where
  script_is_file : Bool
  reqs_is_file : Bool
  inputs_exist : Bool
  enter_copies_ok : Bool
  connectOk : Bool
  docker : DockerEnv
  final_entries : List Entry
  teardown_fails : Nat → Bool
  teardown_time : Nat → ℚ

/-- Full observable outcome of one invocation of `main`. -/
structure MainResult where
  report : ExitCall
  results_dir_reset : Bool
  workspace_created : Bool
  container_created : Bool
  remove_attempts : Nat
  teardown_attempted : Bool
  teardown : Option TeardownOutcome
  runner_error_raised : Bool
  pipeline_completed : Bool
deriving Repr

/-- Report for a pre-flight validation failure in
`parse_and_validate_args`: `handle_exit(json, 'error', {file_not_found})`
before any workspace or container exists. -/
def validationFailure (message : String) : MainResult :=
  { report :=
      { status_arg := "error", payload_status := "error",
        error_type := some "file_not_found", message := message,
        captured_files := none, exit_code := handle_exit_code "error" },
    results_dir_reset := false, workspace_created := false,
    container_created := false, remove_attempts := 0,
    teardown_attempted := false, teardown := none,
    runner_error_raised := false, pipeline_completed := false }

/-- `main` (with `parse_and_validate_args` inlined): validate paths,
provision the workspace, orchestrate the container, capture outputs,
tear down the workspace at the end of the `with` block on every path
that completes `__enter__`, and call `handle_exit` once.  A
`RunnerError` reaching `main` reports its error type; any other
exception reports `runner_internal_error`. -/
def main (config : ScriptConfig) (env : Env) : MainResult :=
  if env.script_is_file = false then
    validationFailure ("Input script not found: " ++ config.script_path.name)
  else if env.reqs_is_file = false then
    validationFailure ("Requirements file not found: " ++ config.reqs_path.name)
  else if env.inputs_exist = false then
    validationFailure "Input file not found"
  else if env.enter_copies_ok = false then
    -- `__enter__` raised after `mkdtemp`: Python skips `__exit__`, the
    -- exception reaches the generic `except Exception` handler.
    { report :=
        { status_arg := "error", payload_status := "error",
          error_type := some "runner_internal_error",
          message := "An unexpected internal error occurred in the runner",
          captured_files := none, exit_code := handle_exit_code "error" },
      results_dir_reset := true, workspace_created := true,
      container_created := false, remove_attempts := 0,
      teardown_attempted := false, teardown := none,
      runner_error_raised := false, pipeline_completed := false }
  else
    let td := wsExit true env.teardown_fails env.teardown_time
    if env.connectOk = false then
      -- `docker.from_env()` raised: `DockerDaemonError` propagates out of
      -- the `with` block (running `__exit__`) into `except RunnerError`.
      { report :=
          { status_arg := "error", payload_status := "error",
            error_type := some "docker_daemon_error",
            message := "Failed to connect to Docker daemon",
            captured_files := none, exit_code := handle_exit_code "error" },
        results_dir_reset := true, workspace_created := true,
        container_created := false, remove_attempts := 0,
        teardown_attempted := true, teardown := td,
        runner_error_raised := true, pipeline_completed := false }
    else
      let runOut := DockerRunner.run env.docker
      let trace := runOut.2
      match runOut.1 with
      | RunOutcome.daemonError m =>
        { report :=
            { status_arg := "error", payload_status := "error",
              error_type := some "docker_daemon_error", message := m,
              captured_files := none, exit_code := handle_exit_code "error" },
          results_dir_reset := true, workspace_created := true,
          container_created := trace.containerCreated,
          remove_attempts := trace.removeAttempts,
          teardown_attempted := true, teardown := td,
          runner_error_raised := true, pipeline_completed := false }
      | RunOutcome.uncaughtDockerExc =>
        { report :=
            { status_arg := "error", payload_status := "error",
              error_type := some "runner_internal_error",
              message := "An unexpected internal error occurred in the runner",
              captured_files := none, exit_code := handle_exit_code "error" },
          results_dir_reset := true, workspace_created := true,
          container_created := trace.containerCreated,
          remove_attempts := trace.removeAttempts,
          teardown_attempted := true, teardown := td,
          runner_error_raised := false, pipeline_completed := false }
      | RunOutcome.ok r =>
        match WorkspaceManager.capture_outputs env.final_entries
            (WorkspaceManager.initial_files config) with
        | Except.error _ =>
          { report :=
              { status_arg := "error", payload_status := "error",
                error_type := some "runner_internal_error",
                message := "An unexpected internal error occurred in the runner",
                captured_files := none, exit_code := handle_exit_code "error" },
            results_dir_reset := true, workspace_created := true,
            container_created := trace.containerCreated,
            remove_attempts := trace.removeAttempts,
            teardown_attempted := true, teardown := td,
            runner_error_raised := false, pipeline_completed := false }
        | Except.ok captured =>
          { report :=
              { status_arg := "success", payload_status := r.status,
                error_type := none, message := r.message,
                captured_files := some captured,
                exit_code := handle_exit_code "success" },
            results_dir_reset := true, workspace_created := true,
            container_created := trace.containerCreated,
            remove_attempts := trace.removeAttempts,
            teardown_attempted := true, teardown := td,
            runner_error_raised := false, pipeline_completed := true }

/-- An example configuration used by concrete-input theorems. -/
def cfgEx : ScriptConfig :=
  { script_path := { name := "script.py" },
    reqs_path := { name := "requirements.txt" },
    input_paths := [],
    script_args := "",
    json_output := false,
    python_version := "3.10" }

/-- A Docker environment in which every client call succeeds, the
container exits 0 with empty logs. -/
def dockerAllOk : DockerEnv :=
  { pullOk := true, createOk := true, startOk := true,
    waitResult := some 0, logsResult := some "", removeOk := true }

/-- A fully healthy invocation environment. -/
def envOk : Env :=
  { script_is_file := true, reqs_is_file := true, inputs_exist := true,
    enter_copies_ok := true, connectOk := true, docker := dockerAllOk,
    final_entries := [{ name := "script.py", is_dir := false },
                      { name := "requirements.txt", is_dir := false }],
    teardown_fails := fun _ => false, teardown_time := fun _ => 0 }

/-- A run environment in which the container exits nonzero with logs
matching no installer signature. -/
def envScriptFail : Env :=
  { envOk with docker :=
      { dockerAllOk with waitResult := some 2, logsResult := some "boom" } }

/-- An environment in which a copy in `__enter__` fails (the
validation/copy race named by the spec). -/
def envEnterFail : Env :=
  { envOk with enter_copies_ok := false }

/-- An environment in which `docker.from_env()` fails. -/
def envNoDocker : Env :=
  { envOk with connectOk := false }

/-- An environment in which the script created a new subdirectory
`outdir` in the workspace. -/
def envNewDir : Env :=
  { envOk with final_entries :=
      [{ name := "script.py", is_dir := false },
       { name := "requirements.txt", is_dir := false },
       { name := "outdir", is_dir := true }] }

/-- A removal oracle that always fails. -/
def failsAlways : Nat → Bool := fun _ => true

/-- An idealized clock: the check after attempt `k` sees elapsed time
`k` times the sleep interval. -/
def timeHalf : Nat → ℚ := fun k => (k : ℚ) * teardown_interval


/-! ### Helper lemmas -/

theorem startsWithChars_iff (needle : List Char) :
    ∀ hay : List Char, startsWithChars hay needle = true ↔
      ∃ post, needle ++ post = hay := by
  induction needle with
  | nil =>
    intro hay
    simp [startsWithChars]
  | cons b bs ih =>
    intro hay
    cases hay with
    | nil =>
      simp [startsWithChars]
    | cons a rest =>
      simp only [startsWithChars, Bool.and_eq_true, decide_eq_true_eq, ih rest]
      constructor
      · rintro ⟨rfl, post, rfl⟩
        exact ⟨post, rfl⟩
      · rintro ⟨post, h⟩
        injection h with h1 h2
        exact ⟨h1.symm, post, h2⟩

theorem containsChars_iff (needle : List Char) :
    ∀ hay : List Char, containsChars hay needle = true ↔
      ∃ pre post, pre ++ needle ++ post = hay := by
  intro hay
  induction hay with
  | nil =>
    rw [containsChars]
    by_cases hs : startsWithChars [] needle = true
    · rw [if_pos hs]
      simp only [true_iff]
      rcases (startsWithChars_iff needle []).mp hs with ⟨post, hpost⟩
      exact ⟨[], post, by simpa using hpost⟩
    · rw [if_neg hs]
      simp only [Bool.false_eq_true, false_iff]
      rintro ⟨pre, post, h⟩
      rcases List.append_eq_nil.mp h with ⟨h2, hpost⟩
      rcases List.append_eq_nil.mp h2 with ⟨hpre, hneedle⟩
      subst hneedle
      exact hs rfl
  | cons a rest ih =>
    rw [containsChars]
    by_cases hs : startsWithChars (a :: rest) needle = true
    · rw [if_pos hs]
      simp only [true_iff]
      rcases (startsWithChars_iff needle (a :: rest)).mp hs with ⟨post, hpost⟩
      exact ⟨[], post, by simpa using hpost⟩
    · rw [if_neg hs, ih]
      constructor
      · rintro ⟨pre, post, rfl⟩
        exact ⟨a :: pre, post, rfl⟩
      · rintro ⟨pre, post, h⟩
        cases pre with
        | nil =>
          exfalso
          apply hs
          rw [startsWithChars_iff]
          exact ⟨post, by simpa using h⟩
        | cons x xs =>
          injection h with h1 h2
          exact ⟨xs, post, h2⟩

theorem strContains_iff (hay needle : String) :
    strContains hay needle = true ↔
      ∃ pre post, pre ++ needle.data ++ post = hay.data := by
  unfold strContains
  exact containsChars_iff needle.data hay.data

theorem anySignature_iff (L : String) :
    (pip_error_signatures.any fun sig => strContains L sig) = true ↔
      ∃ sig ∈ pip_error_signatures, ∃ pre post, pre ++ sig.data ++ post = L.data := by
  rw [List.any_eq_true]
  constructor
  · rintro ⟨sig, hmem, hc⟩
    exact ⟨sig, hmem, (strContains_iff L sig).mp hc⟩
  · rintro ⟨sig, hmem, h⟩
    exact ⟨sig, hmem, (strContains_iff L sig).mpr h⟩

/-! ### Claim theorems -/

/-- C2: the classifier yields `success` iff the exit code is 0; for a
nonzero exit code it yields `environment_setup_failed` iff the log text
contains (as a case-sensitive substring) at least one of the fixed
installer-failure signatures, and `script_failed` otherwise. -/
theorem classifier_characterization (e : Int) (L : String) :
    ((classifyResult e L).status = "success" ↔ e = 0) ∧
    (e ≠ 0 →
      (((classifyResult e L).status = "environment_setup_failed" ↔
          ∃ sig ∈ pip_error_signatures, ∃ pre post, pre ++ sig.data ++ post = L.data) ∧
        ((classifyResult e L).status = "script_failed" ↔
          ¬ ∃ sig ∈ pip_error_signatures, ∃ pre post, pre ++ sig.data ++ post = L.data))) := by
  by_cases he : e = 0
  · subst he
    constructor
    · simp [classifyResult]
    · intro h; exact absurd rfl h
  · have hcl : classifyResult e L =
        (if pip_error_signatures.any (fun sig => strContains L sig) then
          { status := "environment_setup_failed",
            message := "Failed to install dependencies from requirements.txt.",
            details := some { exit_code := some e, raw_logs := some L } }
        else
          { status := "script_failed",
            message := "The user script failed with a non-zero exit code.",
            details := some { exit_code := some e, raw_logs := some L } } : ScriptResult) := by
      simp [classifyResult, he]
    by_cases hsig : (pip_error_signatures.any fun sig => strContains L sig) = true
    · rw [hcl, if_pos hsig]
      refine ⟨iff_of_false
        ((by decide : ("environment_setup_failed" : String) ≠ "success")) he,
        fun _ => ⟨?_, ?_⟩⟩
      · simp only [true_iff]
        exact (anySignature_iff L).mp hsig
      · refine iff_of_false
          ((by decide : ("environment_setup_failed" : String) ≠ "script_failed")) ?_
        rw [not_not]
        exact (anySignature_iff L).mp hsig
    · rw [hcl, if_neg hsig]
      refine ⟨iff_of_false
        ((by decide : ("script_failed" : String) ≠ "success")) he,
        fun _ => ⟨?_, ?_⟩⟩
      · refine iff_of_false
          ((by decide : ("script_failed" : String) ≠ "environment_setup_failed")) ?_
        intro hex
        exact hsig ((anySignature_iff L).mpr hex)
      · simp only [true_iff]
        intro hex
        exact hsig ((anySignature_iff L).mpr hex)

/-- Witness for C2 at exit code 1 and a log line containing the
signature `"No matching distribution found"`. -/
theorem classifier_characterization_witness :
    (classifyResult 1 "ERROR: No matching distribution found for foo").status =
      "environment_setup_failed" := by
  have h := (classifier_characterization 1 "ERROR: No matching distribution found for foo").2
    (by decide)
  exact h.1.mpr
    ⟨"No matching distribution found", by decide,
      "ERROR: ".data, " for foo".data, by decide⟩

/-- C8: the image reference is the literal join `python:<tag>-slim`, and
the executed command is `sh -c` applied to the chain of environment
creation, dependency installation from the manifest by its original
name, and script invocation by its original name with the raw argument
string appended unescaped. -/
theorem image_and_command_contract (config : ScriptConfig) :
    DockerRunner.image config = "python:" ++ config.python_version ++ "-slim" ∧
    DockerRunner.command config = ["sh", "-c", DockerRunner.command_str config] ∧
    DockerRunner.command_str config =
      "python -m venv /opt/venv" ++ " && " ++
        ("/opt/venv/bin/pip install -r /app/" ++ config.reqs_path.name) ++ " && " ++
        ("/opt/venv/bin/python /app/" ++ config.script_path.name) ++ " " ++
        config.script_args := by
  refine ⟨rfl, rfl, ?_⟩
  apply String.ext
  simp only [DockerRunner.command_str, String.data_append, List.append_assoc,
    List.cons_append, List.nil_append]

/-- C1: whenever the container run reaches a terminal exit code (wait
and log retrieval return, removal succeeds), `DockerRunner.run` returns
the classified `ScriptResult` as data for every exit code, nonzero
included, and the result carries the exit code and logs; a
`docker_daemon_error` (`daemonError`) is raised only when one of the
client/daemon calls (pull, create, start, wait, logs) faulted — never
because of the in-container exit code; and the pipeline then proceeds
through output capture and teardown to normal completion. -/
theorem run_nonzero_exit_is_data (config : ScriptConfig) (env : Env)
    (e : Int) (L : String) (cs : List String) :
    (env.docker.pullOk = true → env.docker.createOk = true → env.docker.startOk = true →
      env.docker.waitResult = some e → env.docker.logsResult = some L →
      env.docker.removeOk = true →
      (DockerRunner.run env.docker).1 = RunOutcome.ok (classifyResult e L)) ∧
    (e ≠ 0 → (classifyResult e L).details =
      some { exit_code := some e, raw_logs := some L }) ∧
    (∀ m, (DockerRunner.run env.docker).1 = RunOutcome.daemonError m →
      env.docker.pullOk = false ∨ env.docker.createOk = false ∨
        env.docker.startOk = false ∨ env.docker.waitResult = none ∨
        env.docker.logsResult = none) ∧
    (env.script_is_file = true → env.reqs_is_file = true → env.inputs_exist = true →
      env.enter_copies_ok = true → env.connectOk = true →
      env.docker.pullOk = true → env.docker.createOk = true → env.docker.startOk = true →
      env.docker.waitResult = some e → env.docker.logsResult = some L →
      env.docker.removeOk = true →
      WorkspaceManager.capture_outputs env.final_entries
        (WorkspaceManager.initial_files config) = Except.ok cs →
      (main config env).pipeline_completed = true ∧
        (main config env).teardown_attempted = true) := by
  obtain ⟨h1, h2, h3, h4, h5, hdocker, hfe, htf, htt⟩ := env
  obtain ⟨p, c, s, w, l, r⟩ := hdocker
  refine ⟨?_, ?_, ?_, ?_⟩
  · rintro rfl rfl rfl rfl rfl rfl
    simp [DockerRunner.run, runTryExcept]
  · intro he
    simp only [classifyResult, if_pos he]
    split <;> rfl
  · intro m hm
    cases p with
    | false => exact Or.inl rfl
    | true =>
      cases c with
      | false => exact Or.inr (Or.inl rfl)
      | true =>
        cases s with
        | false => exact Or.inr (Or.inr (Or.inl rfl))
        | true =>
          cases w with
          | none => exact Or.inr (Or.inr (Or.inr (Or.inl rfl)))
          | some e' =>
            cases l with
            | none => exact Or.inr (Or.inr (Or.inr (Or.inr rfl)))
            | some L' =>
              exfalso
              cases r <;> simp [DockerRunner.run, runTryExcept] at hm
  · rintro rfl rfl rfl rfl rfl rfl rfl rfl rfl rfl rfl hcap
    have hr : (DockerRunner.run
        (DockerEnv.mk true true true (some e) (some L) true)).1 =
        RunOutcome.ok (classifyResult e L) := by
      simp [DockerRunner.run, runTryExcept]
    constructor <;> simp [main, hr, hcap]

/-- Witness for C1: a run whose container exits with code 2 returns the
classified result as data, carrying exit code and logs, and the
pipeline completes. -/
theorem run_nonzero_exit_is_data_witness :
    (DockerRunner.run envScriptFail.docker).1 =
      RunOutcome.ok (classifyResult 2 "boom") ∧
    (classifyResult 2 "boom").details =
      some { exit_code := some 2, raw_logs := some "boom" } ∧
    (main cfgEx envScriptFail).pipeline_completed = true := by
  have h := run_nonzero_exit_is_data cfgEx envScriptFail 2 "boom" []
  exact ⟨h.1 rfl rfl rfl rfl rfl rfl, h.2.1 (by decide),
    (h.2.2.2 rfl rfl rfl rfl rfl rfl rfl rfl rfl rfl rfl rfl).1⟩

/-- C3 counterexample: with every client call succeeding except
`container.remove()`, the try body has already determined the outcome
`ScriptResult success`, yet the removal fault escapes the `finally`
block uncaught and replaces that outcome — contradicting the claim that
a removal fault does not escalate or override the run's outcome. -/
theorem removal_fault_escalates_counterexample :
    (runTryExcept
      { pullOk := true, createOk := true, startOk := true,
        waitResult := some 0, logsResult := some "", removeOk := false }).1 =
        Except.ok (classifyResult 0 "") ∧
    (DockerRunner.run
      { pullOk := true, createOk := true, startOk := true,
        waitResult := some 0, logsResult := some "", removeOk := false }).1 =
        RunOutcome.uncaughtDockerExc ∧
    RunOutcome.uncaughtDockerExc ≠ RunOutcome.ok (classifyResult 0 "") := by
  exact ⟨rfl, rfl, by decide⟩

/-- C3 amended: for every orchestration call in which a container was
created (pull and create succeeded), removal is attempted exactly once,
including when start, wait, or log retrieval raises; however a fault
during removal is not suppressed: it escapes `DockerRunner.run`
uncaught (Python's `except` clause does not cover the `finally` block)
and overrides the run's already-determined outcome. -/
theorem container_removal_amended (env : DockerEnv) :
    ((DockerRunner.run env).2.removeAttempts =
      if env.pullOk = true ∧ env.createOk = true then 1 else 0) ∧
    ((DockerRunner.run env).2.containerCreated =
      (env.pullOk && env.createOk)) ∧
    (env.pullOk = true → env.createOk = true → env.removeOk = false →
      (DockerRunner.run env).1 = RunOutcome.uncaughtDockerExc) := by
  obtain ⟨p, c, s, w, l, r⟩ := env
  cases p <;> cases c <;> cases s <;> cases r <;>
    rcases w with _ | e <;> rcases l with _ | L <;>
      simp [DockerRunner.run, runTryExcept]

/-- Witness for C3 amended: even when wait raises, removal is attempted
exactly once, and a failing removal escapes uncaught. -/
theorem container_removal_amended_witness :
    (DockerRunner.run
      { pullOk := true, createOk := true, startOk := true,
        waitResult := none, logsResult := none, removeOk := false }).2.removeAttempts = 1 ∧
    (DockerRunner.run
      { pullOk := true, createOk := true, startOk := true,
        waitResult := none, logsResult := none, removeOk := false }).1 =
      RunOutcome.uncaughtDockerExc := by
  have h := container_removal_amended
    { pullOk := true, createOk := true, startOk := true,
      waitResult := none, logsResult := none, removeOk := false }
  exact ⟨by simpa using h.1, h.2.2 rfl rfl rfl⟩

theorem copyLoop_of_no_dirs (entries : List Entry) :
    ∀ ns : List String, (∀ n ∈ ns, entryIsDir entries n = false) →
      copyLoop entries ns = (ns, none) := by
  intro ns
  induction ns with
  | nil => intro _; rfl
  | cons n rest ih =>
    intro h
    have hn : entryIsDir entries n = false := h n (List.mem_cons_self n rest)
    have hrest := ih fun m hm => h m (List.mem_cons_of_mem n hm)
    simp [copyLoop, hn, hrest]

theorem copyLoop_error_of_dir (entries : List Entry) :
    ∀ ns : List String, (∃ n ∈ ns, entryIsDir entries n = true) →
      (copyLoop entries ns).2 = some PyExc.isADirectoryError := by
  intro ns
  induction ns with
  | nil => rintro ⟨n, hn, _⟩; cases hn
  | cons m rest ih =>
    rintro ⟨n, hn, hdir⟩
    by_cases hm : entryIsDir entries m = true
    · simp [copyLoop, hm]
    · have hm' : entryIsDir entries m = false := by
        cases hc : entryIsDir entries m
        · rfl
        · exact absurd hc hm
      rcases List.mem_cons.mp hn with rfl | htail
      · exact absurd hdir hm
      · simp only [copyLoop, hm', Bool.false_eq_true, if_false]
        exact ih ⟨n, htail, hdir⟩

theorem mem_newFileNames (final_entries : List Entry) (initial : Finset String) (n : String) :
    n ∈ newFileNames final_entries initial ↔
      ((∃ e ∈ final_entries, e.name = n) ∧ n ∉ initial) := by
  simp [newFileNames, List.mem_insertionSort, List.mem_filter, List.mem_dedup, List.mem_map]

/-- C6: `capture_outputs` returns exactly the deterministically sorted
set difference of the file names currently in the workspace minus the
baseline snapshot, copies each such file into the results directory,
and never returns a name already present in the baseline (so the run
captures new names only, not modified pre-existing files). -/
theorem capture_outputs_characterization (final_entries : List Entry) (initial : Finset String)
    (hnodir : ∀ e ∈ final_entries, e.name ∉ initial → e.is_dir = false) :
    WorkspaceManager.capture_outputs final_entries initial =
      Except.ok (newFileNames final_entries initial) ∧
    (∀ n, n ∈ newFileNames final_entries initial ↔
      ((∃ e ∈ final_entries, e.name = n) ∧ n ∉ initial)) ∧
    (newFileNames final_entries initial).Sorted strLe ∧
    (newFileNames final_entries initial).Nodup ∧
    (copyLoop final_entries (newFileNames final_entries initial)).1 =
      newFileNames final_entries initial ∧
    (∀ n ∈ initial, n ∉ newFileNames final_entries initial) := by
  have hall : ∀ n ∈ newFileNames final_entries initial, entryIsDir final_entries n = false := by
    intro n hn
    rcases (mem_newFileNames final_entries initial n).mp hn with ⟨⟨e, he, hname⟩, hnin⟩
    cases hc : entryIsDir final_entries n
    · rfl
    · exfalso
      rcases List.any_eq_true.mp hc with ⟨e', he', hcond⟩
      rw [Bool.and_eq_true] at hcond
      have hname' : e'.name = n := of_decide_eq_true hcond.1
      have hnd := hnodir e' he' (by rw [hname']; exact hnin)
      rw [hnd] at hcond
      exact Bool.false_ne_true hcond.2
  have hloop := copyLoop_of_no_dirs final_entries (newFileNames final_entries initial) hall
  refine ⟨?_, mem_newFileNames final_entries initial,
    List.sorted_insertionSort strLe _, ?_, ?_, ?_⟩
  · simp only [WorkspaceManager.capture_outputs, hloop]
  · show (List.insertionSort strLe
      ((final_entries.map Entry.name).dedup.filter (fun n => n ∉ initial))).Nodup
    exact (List.perm_insertionSort strLe _).nodup_iff.mpr
      ((List.nodup_dedup _).filter _)
  · rw [hloop]
  · intro n hn hmem
    exact ((mem_newFileNames final_entries initial n).mp hmem).2 hn

/-- Witness for C6: a workspace with baseline `{a.txt}` that now holds
`a.txt` and `out.txt` captures exactly `["out.txt"]`. -/
theorem capture_outputs_characterization_witness :
    WorkspaceManager.capture_outputs
      [{ name := "a.txt", is_dir := false }, { name := "out.txt", is_dir := false }]
      {"a.txt"} =
      Except.ok (newFileNames
        [{ name := "a.txt", is_dir := false }, { name := "out.txt", is_dir := false }]
        {"a.txt"}) ∧
    newFileNames
      [{ name := "a.txt", is_dir := false }, { name := "out.txt", is_dir := false }]
      {"a.txt"} = ["out.txt"] := by
  have h := capture_outputs_characterization
    [{ name := "a.txt", is_dir := false }, { name := "out.txt", is_dir := false }]
    {"a.txt"} (by decide)
  exact ⟨h.1, by decide⟩

/-- C7: when the configured script path is not an existing regular
file, the run reports `file_not_found` (process exit code 1) before any
side effect: the results directory is not reset, no workspace directory
and no container are created, and no removal of either is attempted. -/
theorem missing_script_preflight_abort (config : ScriptConfig) (env : Env)
    (h : env.script_is_file = false) :
    (main config env).report.error_type = some "file_not_found" ∧
    (main config env).report.status_arg = "error" ∧
    (main config env).report.exit_code = 1 ∧
    (main config env).results_dir_reset = false ∧
    (main config env).workspace_created = false ∧
    (main config env).container_created = false ∧
    (main config env).remove_attempts = 0 ∧
    (main config env).teardown_attempted = false := by
  simp [main, h, validationFailure, handle_exit_code]

/-- Witness for C7: a concrete environment whose script path is missing. -/
theorem missing_script_preflight_abort_witness :
    (main cfgEx { envOk with script_is_file := false }).report.error_type =
      some "file_not_found" ∧
    (main cfgEx { envOk with script_is_file := false }).workspace_created = false ∧
    (main cfgEx { envOk with script_is_file := false }).container_created = false := by
  have h := missing_script_preflight_abort cfgEx { envOk with script_is_file := false } rfl
  exact ⟨h.1, h.2.2.2.2.1, h.2.2.2.2.2.1⟩

/-- C5: the process exit code is 0 exactly when the orchestration
pipeline itself completed (reaching the final `handle_exit` with status
`'success'`); every run that ends in a raised `RunnerError` exits with
code 1. -/
theorem exit_code_contract (config : ScriptConfig) (env : Env) :
    ((main config env).report.exit_code = 0 ↔
      (main config env).pipeline_completed = true) ∧
    ((main config env).runner_error_raised = true →
      (main config env).report.exit_code = 1) := by
  obtain ⟨si, ri, ie, ec, co, d, fe, tf, tt⟩ := env
  cases si <;> cases ri <;> cases ie <;> cases ec <;> cases co <;>
    simp only [main, validationFailure, handle_exit_code] <;>
    try simp
  all_goals
    rcases hr : (DockerRunner.run d).1 with r | m | _ <;>
      simp only [hr] <;>
      try simp
  all_goals
    rcases hc : WorkspaceManager.capture_outputs fe
        (WorkspaceManager.initial_files config) with e | cs <;>
      simp [hc]

/-- Witness for C5: a run in which `docker.from_env` fails raises
`DockerDaemonError` (a `RunnerError`) and exits 1. -/
theorem exit_code_contract_witness :
    (main cfgEx envNoDocker).runner_error_raised = true ∧
    (main cfgEx envNoDocker).report.exit_code = 1 :=
  ⟨rfl, (exit_code_contract cfgEx envNoDocker).2 rfl⟩

/-- C9: every run that completes the pipeline without a raised
`RunnerError` reaches `handle_exit` with status `'success'` and process
exit code 0 — including runs whose classified result status is
`script_failed` or `environment_setup_failed`, which therefore also
exit 0. -/
theorem classified_failure_exits_zero (config : ScriptConfig) (env : Env)
    (r : ScriptResult) (cs : List String)
    (h1 : env.script_is_file = true) (h2 : env.reqs_is_file = true)
    (h3 : env.inputs_exist = true) (h4 : env.enter_copies_ok = true)
    (h5 : env.connectOk = true)
    (hrun : (DockerRunner.run env.docker).1 = RunOutcome.ok r)
    (hcap : WorkspaceManager.capture_outputs env.final_entries
      (WorkspaceManager.initial_files config) = Except.ok cs) :
    (main config env).report.status_arg = "success" ∧
    (main config env).report.exit_code = 0 ∧
    (main config env).report.payload_status = r.status ∧
    (main config env).report.captured_files = some cs := by
  simp [main, h1, h2, h3, h4, h5, hrun, hcap, handle_exit_code]

/-- Witness for C9: a container exiting 2 with logs matching no
installer signature is classified `script_failed`, yet the process
exits 0. -/
theorem classified_failure_exits_zero_witness :
    (main cfgEx envScriptFail).report.exit_code = 0 ∧
    (main cfgEx envScriptFail).report.payload_status = "script_failed" := by
  have h := classified_failure_exits_zero cfgEx envScriptFail
    (classifyResult 2 "boom") [] rfl rfl rfl rfl rfl rfl rfl
  refine ⟨h.2.1, ?_⟩
  rw [h.2.2.1]
  decide

/-- C10: a new directory entry created by the script is included in the
computed name difference, the copy loop then raises
`IsADirectoryError`, and the run — whose container result was already
obtained — ends as a `runner_internal_error` infrastructure failure
with exit code 1. -/
theorem new_directory_internal_error (config : ScriptConfig) (env : Env)
    (r : ScriptResult) (d : String)
    (h1 : env.script_is_file = true) (h2 : env.reqs_is_file = true)
    (h3 : env.inputs_exist = true) (h4 : env.enter_copies_ok = true)
    (h5 : env.connectOk = true)
    (hrun : (DockerRunner.run env.docker).1 = RunOutcome.ok r)
    (hd : Entry.mk d true ∈ env.final_entries)
    (hnew : d ∉ WorkspaceManager.initial_files config) :
    d ∈ newFileNames env.final_entries (WorkspaceManager.initial_files config) ∧
    WorkspaceManager.capture_outputs env.final_entries
      (WorkspaceManager.initial_files config) = Except.error PyExc.isADirectoryError ∧
    (main config env).report.error_type = some "runner_internal_error" ∧
    (main config env).report.exit_code = 1 ∧
    (main config env).pipeline_completed = false := by
  have hdmem : d ∈ newFileNames env.final_entries (WorkspaceManager.initial_files config) :=
    (mem_newFileNames env.final_entries (WorkspaceManager.initial_files config) d).mpr
      ⟨⟨Entry.mk d true, hd, rfl⟩, hnew⟩
  have hdir : entryIsDir env.final_entries d = true := by
    apply List.any_eq_true.mpr
    exact ⟨Entry.mk d true, hd, by simp⟩
  have herr := copyLoop_error_of_dir env.final_entries
    (newFileNames env.final_entries (WorkspaceManager.initial_files config))
    ⟨d, hdmem, hdir⟩
  have hcap : WorkspaceManager.capture_outputs env.final_entries
      (WorkspaceManager.initial_files config) = Except.error PyExc.isADirectoryError := by
    simp only [WorkspaceManager.capture_outputs, herr]
  refine ⟨hdmem, hcap, ?_⟩
  simp [main, h1, h2, h3, h4, h5, hrun, hcap, handle_exit_code]

/-- Witness for C10: a script that ran to exit code 0 but created the
subdirectory `outdir` ends in `runner_internal_error`. -/
theorem new_directory_internal_error_witness :
    (main cfgEx envNewDir).report.error_type = some "runner_internal_error" ∧
    (main cfgEx envNewDir).report.exit_code = 1 := by
  have h := new_directory_internal_error cfgEx envNewDir
    (classifyResult 0 "") "outdir" rfl rfl rfl rfl rfl rfl
    (by decide) (by decide)
  exact ⟨h.2.2.1, h.2.2.2.1⟩

theorem exitLoop_succ (fails : Nat → Bool) (time : Nat → ℚ) (fuel k : Nat) :
    exitLoop fails time (fuel + 1) k =
      if fails k = false then
        some { removed := true, fatalLogged := false, attempts := k + 1 }
      else if teardown_timeout < time k then
        some { removed := false, fatalLogged := true, attempts := k + 1 }
      else exitLoop fails time fuel (k + 1) := rfl

theorem exitLoop_total (fails : Nat → Bool) (time : Nat → ℚ) :
    ∀ fuel k, teardown_timeout < time (k + fuel) →
      ∃ out, exitLoop fails time (fuel + 1) k = some out := by
  intro fuel
  induction fuel with
  | zero =>
    intro k h
    cases hf : fails k with
    | false =>
      exact ⟨_, by rw [exitLoop_succ, if_pos hf]⟩
    | true =>
      rw [show k + 0 = k from rfl] at h
      exact ⟨_, by rw [exitLoop_succ, if_neg (by simp [hf]), if_pos h]⟩
  | succ fuel ih =>
    intro k h
    cases hf : fails k with
    | false =>
      exact ⟨_, by rw [exitLoop_succ, if_pos hf]⟩
    | true =>
      by_cases ht : teardown_timeout < time k
      · exact ⟨_, by rw [exitLoop_succ, if_neg (by simp [hf]), if_pos ht]⟩
      · have h' : teardown_timeout < time ((k + 1) + fuel) := by
          have heq : (k + 1) + fuel = k + (fuel + 1) := by omega
          rw [heq]
          exact h
        rcases ih (k + 1) h' with ⟨out, hout⟩
        refine ⟨out, ?_⟩
        rw [exitLoop_succ, if_neg (by simp [hf]), if_neg ht]
        exact hout

theorem exitLoop_gave_up (fails : Nat → Bool) (time : Nat → ℚ) :
    ∀ fuel k out, exitLoop fails time fuel k = some out → out.removed = false →
      out.fatalLogged = true ∧ k + 1 ≤ out.attempts ∧
      teardown_timeout < time (out.attempts - 1) ∧
      ∀ j, k ≤ j → j < out.attempts → fails j = true := by
  intro fuel
  induction fuel with
  | zero => intro k out h; cases h
  | succ fuel ih =>
    intro k out h hrem
    rw [exitLoop_succ] at h
    cases hf : fails k with
    | false =>
      rw [if_pos hf] at h
      injection h with h
      rw [← h] at hrem
      cases hrem
    | true =>
      rw [if_neg (by simp [hf])] at h
      by_cases ht : teardown_timeout < time k
      · rw [if_pos ht] at h
        injection h with h
        subst h
        refine ⟨rfl, le_refl _, by simpa using ht, ?_⟩
        intro j hkj hjk
        have hjk' : j < k + 1 := hjk
        have hj : j = k := by omega
        rw [hj]
        exact hf
      · rw [if_neg ht] at h
        rcases ih (k + 1) out h hrem with ⟨hfat, hle, htime, hall⟩
        refine ⟨hfat, by omega, htime, ?_⟩
        intro j hkj hjlt
        rcases Nat.eq_or_lt_of_le hkj with rfl | hlt
        · exact hf
        · exact hall j hlt hjlt

theorem time_lower_bound (time : Nat → ℚ) (h0 : 0 ≤ time 0)
    (hstep : ∀ k, time k + teardown_interval ≤ time (k + 1)) :
    ∀ k : Nat, (k : ℚ) * teardown_interval ≤ time k := by
  intro k
  induction k with
  | zero => simpa using h0
  | succ k ih =>
    have h1 := hstep k
    have h2 : ((k + 1 : Nat) : ℚ) * teardown_interval =
        (k : ℚ) * teardown_interval + teardown_interval := by
      push_cast
      ring
    rw [h2]
    linarith

/-- C4 counterexample: when a copy inside `WorkspaceManager.__enter__`
raises (the validation/copy race the spec itself names), Python skips
`__exit__`, so although the temporary directory was created and the run
ends as an infrastructure failure (`runner_internal_error`), removal of
the workspace is never attempted — refuting removal "on every exit
path". -/
theorem teardown_skipped_on_provisioning_failure :
    (main cfgEx envEnterFail).workspace_created = true ∧
    (main cfgEx envEnterFail).teardown_attempted = false ∧
    (main cfgEx envEnterFail).report.error_type = some "runner_internal_error" ∧
    (main cfgEx envEnterFail).report.exit_code = 1 :=
  ⟨rfl, rfl, rfl, rfl⟩

/-- C4 amended: on every exit path on which workspace provisioning
completed (`__enter__` returned), removal of the temporary directory is
attempted — an exception during provisioning itself bypasses teardown.
When removal keeps failing it is retried on a fixed interval until the
total elapsed time exceeds 15 s, after which teardown logs the residual
failure and gives up; the run's determined report (status and exit
code) is unchanged by any teardown behaviour. -/
theorem teardown_bounded_retry_amended (config : ScriptConfig) (env : Env)
    (fails : Nat → Bool) (time : Nat → ℚ) :
    (env.enter_copies_ok = true → (main config env).workspace_created = true →
      (main config env).teardown_attempted = true) ∧
    ((0 : ℚ) ≤ time 0 → (∀ k, time k + teardown_interval ≤ time (k + 1)) →
      ∃ out, wsExit true fails time = some out) ∧
    (∀ out, wsExit true fails time = some out → out.removed = false →
      out.fatalLogged = true ∧ teardown_timeout < time (out.attempts - 1) ∧
      ∀ j < out.attempts, fails j = true) ∧
    (∀ f₁ t₁ f₂ t₂,
      (main config { env with teardown_fails := f₁, teardown_time := t₁ }).report =
        (main config { env with teardown_fails := f₂, teardown_time := t₂ }).report) := by
  obtain ⟨si, ri, ie, ec, co, d, fe, tf, tt⟩ := env
  refine ⟨?_, ?_, ?_, ?_⟩
  · intro hec hw
    cases si with
    | false => exact absurd hw (by simp [main, validationFailure])
    | true =>
    cases ri with
    | false => exact absurd hw (by simp [main, validationFailure])
    | true =>
    cases ie with
    | false => exact absurd hw (by simp [main, validationFailure])
    | true =>
    cases ec with
    | false => cases hec
    | true =>
    cases co with
    | false => simp [main]
    | true =>
      rcases hr : (DockerRunner.run d).1 with r | m | _
      · rcases hc : WorkspaceManager.capture_outputs fe
            (WorkspaceManager.initial_files config) with e | cs
        · simp [main, hr, hc]
        · simp [main, hr, hc]
      · simp [main, hr]
      · simp [main, hr]
  · intro h0 hstep
    apply exitLoop_total fails time 31 0
    have h31 := time_lower_bound time h0 hstep 31
    push_cast at h31
    rw [show (0 : Nat) + 31 = 31 from rfl]
    have hlt : teardown_timeout < (31 : ℚ) * teardown_interval := by
      norm_num [teardown_timeout, teardown_interval]
    linarith
  · intro out hout hrem
    have hloop : exitLoop fails time 32 0 = some out := by
      simpa [wsExit] using hout
    rcases exitLoop_gave_up fails time 32 0 out hloop hrem with ⟨hfat, _, htime, hall⟩
    exact ⟨hfat, htime, fun j hj => hall j (Nat.zero_le j) hj⟩
  · intro f₁ t₁ f₂ t₂
    cases si with
    | false => rfl
    | true =>
    cases ri with
    | false => rfl
    | true =>
    cases ie with
    | false => rfl
    | true =>
    cases ec with
    | false => rfl
    | true =>
    cases co with
    | false => rfl
    | true =>
      rcases hr : (DockerRunner.run d).1 with r | m | _
      · rcases hc : WorkspaceManager.capture_outputs fe
            (WorkspaceManager.initial_files config) with e | cs
        · simp [main, hr, hc]
        · simp [main, hr, hc]
      · simp [main, hr]
      · simp [main, hr]

/-- Witness for C4 amended: the healthy run attempts teardown; with an
always-failing removal and a half-second-per-attempt clock, the retry
loop terminates (gives up within the bounded window). -/
theorem teardown_bounded_retry_amended_witness :
    (main cfgEx envOk).teardown_attempted = true ∧
    (∃ out, wsExit true failsAlways timeHalf = some out) := by
  have h := teardown_bounded_retry_amended cfgEx envOk failsAlways timeHalf
  refine ⟨h.1 rfl rfl, h.2.1 (by norm_num [timeHalf]) ?_⟩
  intro k
  apply le_of_eq
  simp only [timeHalf]
  push_cast
  ring

end PyTestRunner
